import Mathlib

/-!
A shallow embedding of the crypto_mcp_server repository: the TTL cache
(data_cacher.py) and the cached request handlers (crypto_data_server.py),
together with theorems settling the specification claims about them.

Modelling conventions:
* Time is an explicit argument `now : Nat` in milliseconds; the source
  samples `time.time() * 1000` once per `get`/`set` call, which the
  explicit argument mirrors.  A clock that is rolled back is modelled by
  calling a later operation with a smaller `now`.
* The Python dict backing the cache is modelled as an association list
  with at most one binding per key: `set` removes any old binding before
  prepending the new one, extensionally the same mapping as dict update.
* The upstream ccxt exchange is an oracle argument (`FetchResult`), and
  numeric payload fields (prices, volumes, timestamps of candles) are
  carried as `Int`; no claim performs arithmetic on them.
* Python truthiness of cached values (`if cached_data:`) is modelled by
  `CVal.truthy`; the Python `None` returned by `DataCacher.get` on a
  miss is recovered from the `Option` result with `Option.getD CVal.pyNone`.
-/

/-- data_cacher.py line 5: `DEFAULT_TTL_SECONDS = 5`. -/
def DEFAULT_TTL_SECONDS : Nat := 5

/-- data_cacher.py lines 14-17: cache storage maps a string key to a
triple `(timestamp_ms, ttl_ms, data)`; the instance also carries
`default_ttl_ms = default_ttl * 1000`. -/
structure DataCacher (V : Type) where
  _cache : List (String × Nat × Nat × V)
  default_ttl_ms : Nat
deriving DecidableEq

/-- data_cacher.py lines 14-17: `__init__(default_ttl)` builds an empty
cache with `default_ttl_ms = default_ttl * 1000`. -/
def DataCacher.init (V : Type) (default_ttl : Nat) : DataCacher V :=
  { _cache := [], default_ttl_ms := default_ttl * 1000 }

/-- data_cacher.py line 46: `ttl_ms = (ttl * 1000) if ttl is not None
else self.default_ttl_ms`. -/
def DataCacher.resolve_ttl_ms {V : Type} (c : DataCacher V) (ttl : Option Nat) : Nat :=
  match ttl with
  | some t => t * 1000
  | none => c.default_ttl_ms

/-- data_cacher.py lines 23-38: `get` returns the stored data when the
entry is live (`now < timestamp + ttl_ms`); an expired entry is deleted
(`del self._cache[key]`) and `None` is returned; an absent key returns
`None`.  The possibly-updated cache is returned alongside. -/
def DataCacher.get {V : Type} (c : DataCacher V) (key : String) (now : Nat) :
    Option V × DataCacher V :=
  match c._cache.lookup key with
  | some (timestamp, ttl_ms, data) =>
    if now < timestamp + ttl_ms then
      (some data, c)
    else
      (none, { _cache := c._cache.filter (fun e => e.1 != key),
               default_ttl_ms := c.default_ttl_ms })
  | none => (none, c)

/-- data_cacher.py lines 40-47: `set` stores `(now, ttl_ms, data)` under
`key`, fully replacing any existing binding (dict assignment). -/
def DataCacher.set {V : Type} (c : DataCacher V) (key : String) (data : V)
    (ttl : Option Nat) (now : Nat) : DataCacher V :=
  { _cache := (key, now, c.resolve_ttl_ms ttl, data) ::
      c._cache.filter (fun e => e.1 != key),
    default_ttl_ms := c.default_ttl_ms }

/-- data_cacher.py lines 49-51: `clear` removes all entries. -/
def DataCacher.clear {V : Type} (c : DataCacher V) : DataCacher V :=
  { _cache := [], default_ttl_ms := c.default_ttl_ms }

/-- crypto_data_server.py line 39: the exchange identifier, binance. -/
def EXCHANGE_ID : String := "binance"

/-- crypto_data_server.py lines 19-26: OHLCVDataPoint schema.  Numeric
fields are carried as Int; `open` is a Lean keyword, hence `open_`. -/
structure OHLCVDataPoint where
  timestamp_ms : Int
  open_ : Int
  high : Int
  low : Int
  close : Int
  volume : Int
deriving DecidableEq

/-- crypto_data_server.py lines 12-17: TickerResponse schema. -/
structure TickerResponse where
  symbol : String
  price : Int
  timestamp_ms : Int
  source_exchange : String
deriving DecidableEq

/-- crypto_data_server.py lines 28-34: HistoricalResponse schema. -/
structure HistoricalResponse where
  symbol : String
  timeframe : String
  data : List OHLCVDataPoint
  source_exchange : String
  count : Nat
deriving DecidableEq

/-- The values the process-wide cache holds at runtime: Python None, a
ticker response, a historical response, or the markets mapping
(modelled by its key set, the only part the server reads). -/
inductive CVal where
  | pyNone
  | tick (t : TickerResponse)
  | hist (h : HistoricalResponse)
  | marketsVal (ms : List String)
deriving DecidableEq

/-- Python truthiness of a cached value, as tested by the handlers with
`if cached_data:`.  None is falsy, pydantic model instances are always
truthy, a dict is truthy iff nonempty. -/
def CVal.truthy : CVal → Bool
  | pyNone => false
  | tick _ => true
  | hist _ => true
  | marketsVal ms => !ms.isEmpty

/-- An HTTPException: status code and detail string. -/
structure HTTPError where
  status_code : Nat
  detail : String
deriving DecidableEq

/-- What a handler try-block can raise: an HTTPException it constructed
itself, a ccxt.ExchangeError or any other Exception surfaced by the
upstream fetch, or an asyncio cancellation -- which since Python 3.8 is
a BaseException and is NOT caught by `except Exception`. -/
inductive PyExc where
  | http (e : HTTPError)
  | exchangeErr (msg : String)
  | otherErr (msg : String)
  | cancelledExc
deriving DecidableEq

/-- A handler outcome as seen by the serving layer: an HTTPException
(FastAPI renders it as the HTTP error response) or a propagated
cancellation. -/
inductive ServerSignal where
  | http (e : HTTPError)
  | cancelled
deriving DecidableEq

/-- Oracle for one upstream exchange call: it succeeds, raises a
ccxt.ExchangeError, raises some other Exception (network failure,
shaping error), or is cancelled. -/
inductive FetchResult (A : Type) where
  | ok (a : A)
  | exchangeError (msg : String)
  | otherError (msg : String)
  | cancelled
deriving DecidableEq

/-- The fields of a ccxt ticker the handler reads
(crypto_data_server.py lines 143-145). -/
structure TickerData where
  symbol : String
  last : Int
  timestamp : Int
deriving DecidableEq

/-- One raw candle, read positionally as
timestamp/open/high/low/close/volume (crypto_data_server.py
lines 204-211 read indices 0 through 5). -/
abbrev RawOHLCV : Type := Int × Int × Int × Int × Int × Int

/-- Python str() of an exception, as interpolated into the 500 detail
strings; for an HTTPException Starlette renders status then detail. -/
def PyExc.str : PyExc → String
  | .http e => toString e.status_code ++ ": " ++ e.detail
  | .exchangeErr m => m
  | .otherErr m => m
  | .cancelledExc => ""

/-- Python str.upper as applied on line 86 of crypto_data_server.py,
modelled characterwise (symbols are ASCII); structurally recursive so
that concrete instances compute. -/
def pyUpper (s : String) : String := String.mk (s.data.map Char.toUpper)

/-- crypto_data_server.py lines 83-92: validate_symbol uppercases the
symbol and rejects it with a 404 HTTPException when it is not a key of
the exchange markets mapping (modelled by its key list). -/
def validate_symbol (symbol : String) (markets : List String) :
    Except HTTPError String :=
  let s := pyUpper symbol
  if s ∈ markets then .ok s
  else .error
    { status_code := 404
      detail := "Symbol " ++ s ++ " not found on " ++ EXCHANGE_ID ++
        ". Example: BTC/USDT" }

/-- crypto_data_server.py line 186: the historical cache key, built from
the already-uppercased symbol, the timeframe and the limit. -/
def histCacheKey (sym timeframe : String) (limit : Nat) : String :=
  "ohlcv:" ++ sym ++ ":" ++ timeframe ++ ":" ++ toString limit

/-- crypto_data_server.py line 131: the ticker cache key. -/
def tickerCacheKey (sym : String) : String :=
  "ticker:" ++ sym

/-- crypto_data_server.py lines 203-220: shaping the raw candles into
the HistoricalResponse record (data_points list, then the response with
count = len(data_points)). -/
def shapeHist (sym timeframe : String) (ohlcv : List RawOHLCV) : HistoricalResponse :=
  let data_points := ohlcv.map (fun p =>
    OHLCVDataPoint.mk p.1 p.2.1 p.2.2.1 p.2.2.2.1 p.2.2.2.2.1 p.2.2.2.2.2)
  { symbol := sym, timeframe := timeframe, data := data_points,
    source_exchange := EXCHANGE_ID, count := data_points.length }

/-- crypto_data_server.py lines 194-225: the try body of
get_historical_data.  The `raise HTTPException(404, ...)` for an empty
result happens inside the try block, so it is an exception raised in
the body; upstream outcomes come from the oracle. -/
def historical_try (sym timeframe : String) (cache_key : String)
    (fetch : FetchResult (List RawOHLCV)) (cache : DataCacher CVal) (now : Nat) :
    Except PyExc CVal × DataCacher CVal :=
  match fetch with
  | .cancelled => (.error .cancelledExc, cache)
  | .exchangeError m => (.error (.exchangeErr m), cache)
  | .otherError m => (.error (.otherErr m), cache)
  | .ok ohlcv =>
    if ohlcv.isEmpty then
      (.error (.http
        { status_code := 404
          detail := "No historical data found for " ++ sym ++ " at timeframe " ++
            timeframe ++ "." }), cache)
    else
      (.ok (CVal.hist (shapeHist sym timeframe ohlcv)),
       cache.set cache_key (CVal.hist (shapeHist sym timeframe ohlcv)) (some (60 * 60)) now)

/-- crypto_data_server.py lines 227-236: the except clauses of
get_historical_data.  `except ccxt.ExchangeError` maps to a 400; every
other Exception -- including the HTTPException 404 raised for an empty
result inside the try block -- is caught by `except Exception` and
becomes a 500; a cancellation is a BaseException and propagates. -/
def historical_excepts (sym : String) :
    Except PyExc CVal → Except ServerSignal CVal
  | .ok v => .ok v
  | .error (.exchangeErr m) =>
    .error (.http
      { status_code := 400
        detail := "Exchange Error for " ++ sym ++ ": " ++ m })
  | .error .cancelledExc => .error .cancelled
  | .error (.http e) =>
    .error (.http
      { status_code := 500
        detail := "A network or processing error occurred: " ++ PyExc.str (.http e) })
  | .error (.otherErr m) =>
    .error (.http
      { status_code := 500
        detail := "A network or processing error occurred: " ++ m })

/-- crypto_data_server.py lines 166-236: get_historical_data.  The
markets mapping and the supported timeframe set are the injected
dependency values (as in the source signature); the upstream fetch is
the oracle; the process-wide CACHE state is threaded explicitly. -/
def get_historical_data (symbol timeframe : String) (limit : Nat)
    (markets timeframes : List String) (fetch : FetchResult (List RawOHLCV))
    (cache : DataCacher CVal) (now : Nat) :
    Except ServerSignal CVal × DataCacher CVal :=
  match validate_symbol symbol markets with
  | .error e => (.error (.http e), cache)
  | .ok sym =>
    if timeframe ∈ timeframes then
      let looked := cache.get (histCacheKey sym timeframe limit) now
      if (looked.1.getD CVal.pyNone).truthy then
        (.ok (looked.1.getD CVal.pyNone), looked.2)
      else
        let body := historical_try sym timeframe (histCacheKey sym timeframe limit)
          fetch looked.2 now
        (historical_excepts sym body.1, body.2)
    else
      (.error (.http
        { status_code := 400
          detail := "Invalid timeframe: " ++ timeframe ++ ". Supported: " ++
            String.intercalate ", " timeframes }), cache)

/-- crypto_data_server.py lines 139-152: the try body of
get_realtime_price: fetch the ticker, shape it, store it under the
default 5 s TTL. -/
def realtime_try (cache_key : String) (fetch : FetchResult TickerData)
    (cache : DataCacher CVal) (now : Nat) :
    Except PyExc CVal × DataCacher CVal :=
  match fetch with
  | .cancelled => (.error .cancelledExc, cache)
  | .exchangeError m => (.error (.exchangeErr m), cache)
  | .otherError m => (.error (.otherErr m), cache)
  | .ok ticker =>
    let response_data : TickerResponse :=
      { symbol := ticker.symbol, price := ticker.last,
        timestamp_ms := ticker.timestamp, source_exchange := EXCHANGE_ID }
    (.ok (CVal.tick response_data),
     cache.set cache_key (CVal.tick response_data) none now)

/-- crypto_data_server.py lines 154-163: the except clauses of
get_realtime_price. -/
def realtime_excepts (sym : String) :
    Except PyExc CVal → Except ServerSignal CVal
  | .ok v => .ok v
  | .error (.exchangeErr m) =>
    .error (.http
      { status_code := 400
        detail := "Exchange Error for " ++ sym ++ ": " ++ m })
  | .error .cancelledExc => .error .cancelled
  | .error (.http e) =>
    .error (.http
      { status_code := 500
        detail := "Internal Server Error: " ++ PyExc.str (.http e) })
  | .error (.otherErr m) =>
    .error (.http
      { status_code := 500
        detail := "Internal Server Error: " ++ m })

/-- crypto_data_server.py lines 121-163: get_realtime_price. -/
def get_realtime_price (symbol : String) (markets : List String)
    (fetch : FetchResult TickerData) (cache : DataCacher CVal) (now : Nat) :
    Except ServerSignal CVal × DataCacher CVal :=
  match validate_symbol symbol markets with
  | .error e => (.error (.http e), cache)
  | .ok sym =>
    let looked := cache.get (tickerCacheKey sym) now
    if (looked.1.getD CVal.pyNone).truthy then
      (.ok (looked.1.getD CVal.pyNone), looked.2)
    else
      let body := realtime_try (tickerCacheKey sym) fetch looked.2 now
      (realtime_excepts sym body.1, body.2)

/-- data_cacher.py line 54: the process-wide cache instance starts out
empty with the default TTL of 5 seconds. -/
def CACHE : DataCacher CVal := DataCacher.init CVal DEFAULT_TTL_SECONDS

theorem lookup_filter_ne_self {α : Type} (k : String) (l : List (String × α)) :
    (l.filter (fun e => e.1 != k)).lookup k = none := by
  induction l with
  | nil => rfl
  | cons a t ih =>
    rcases a with ⟨a1, b⟩
    by_cases h : a1 = k
    · have hb : ((a1, b).1 != k) = false := by simp [h]
      simp [List.filter_cons, hb, ih]
    · have hb : ((a1, b).1 != k) = true := by simp [h]
      have hk : (k == a1) = false := beq_eq_false_iff_ne.mpr (Ne.symm h)
      simp [List.filter_cons, hb, List.lookup, hk, ih]

theorem lookup_filter_ne_other {α : Type} (k k2 : String) (l : List (String × α))
    (h : k2 ≠ k) :
    (l.filter (fun e => e.1 != k)).lookup k2 = l.lookup k2 := by
  induction l with
  | nil => rfl
  | cons a t ih =>
    rcases a with ⟨a1, b⟩
    by_cases ha : a1 = k
    · have hb : ((a1, b).1 != k) = false := by simp [ha]
      have hk : (k2 == a1) = false := beq_eq_false_iff_ne.mpr (ha ▸ h)
      simp [List.filter_cons, hb, List.lookup, hk, ih]
    · have hb : ((a1, b).1 != k) = true := by simp [ha]
      by_cases h2 : k2 = a1
      · have hk : (k2 == a1) = true := beq_iff_eq.mpr h2
        simp [List.filter_cons, hb, List.lookup, hk]
      · have hk : (k2 == a1) = false := beq_eq_false_iff_ne.mpr h2
        simp [List.filter_cons, hb, List.lookup, hk, ih]

theorem lookup_set_self {V : Type} (c : DataCacher V) (k : String) (v : V)
    (ttl : Option Nat) (now : Nat) :
    (c.set k v ttl now)._cache.lookup k = some (now, c.resolve_ttl_ms ttl, v) := by
  simp [DataCacher.set, List.lookup]

theorem lookup_set_other {V : Type} (c : DataCacher V) (k k2 : String) (v : V)
    (ttl : Option Nat) (now : Nat) (h : k2 ≠ k) :
    (c.set k v ttl now)._cache.lookup k2 = c._cache.lookup k2 := by
  simp only [DataCacher.set]
  rw [List.lookup]
  have : (k2 == k) = false := by simp [h]
  simp [this, lookup_filter_ne_other k k2 c._cache h]

theorem default_ttl_set {V : Type} (c : DataCacher V) (k : String) (v : V)
    (ttl : Option Nat) (now : Nat) :
    (c.set k v ttl now).default_ttl_ms = c.default_ttl_ms := rfl

theorem resolve_ttl_set {V : Type} (c : DataCacher V) (k : String) (v : V)
    (t1 t2 : Option Nat) (now : Nat) :
    (c.set k v t1 now).resolve_ttl_ms t2 = c.resolve_ttl_ms t2 := by
  cases t2 <;> rfl

theorem get_of_lookup_live {V : Type} (c : DataCacher V) (k : String)
    (ts tt : Nat) (v : V) (now : Nat)
    (h : c._cache.lookup k = some (ts, tt, v)) (hl : now < ts + tt) :
    c.get k now = (some v, c) := by
  simp [DataCacher.get, h, hl]

theorem get_of_lookup_expired {V : Type} (c : DataCacher V) (k : String)
    (ts tt : Nat) (v : V) (now : Nat)
    (h : c._cache.lookup k = some (ts, tt, v)) (hl : ¬ now < ts + tt) :
    c.get k now = (none, { _cache := c._cache.filter (fun e => e.1 != k),
                           default_ttl_ms := c.default_ttl_ms }) := by
  simp [DataCacher.get, h, hl]

theorem get_of_lookup_none {V : Type} (c : DataCacher V) (k : String) (now : Nat)
    (h : c._cache.lookup k = none) :
    c.get k now = (none, c) := by
  simp [DataCacher.get, h]

/-- Claim C1: for every key with a stored entry, get returns the stored
value iff called at a time strictly before stored_at + ttl; called at or
after that time it returns absent and deletes the entry, so every
subsequent get of that key also returns absent even when the clock is
rolled back before the original expiry time. -/
theorem claim_C1 {V : Type} (c : DataCacher V) (k : String) (ts tt : Nat)
    (v : V) (now now2 : Nat)
    (h : c._cache.lookup k = some (ts, tt, v)) :
    ((c.get k now).1 = some v ↔ now < ts + tt) ∧
    (ts + tt ≤ now →
      ((c.get k now).2._cache.lookup k = none ∧
       (((c.get k now).2).get k now2).1 = none)) := by
  constructor
  · constructor
    · intro hg
      by_contra hnl
      rw [get_of_lookup_expired c k ts tt v now h hnl] at hg
      exact Option.noConfusion hg
    · intro hl
      rw [get_of_lookup_live c k ts tt v now h hl]
  · intro hexp
    have hnl : ¬ now < ts + tt := Nat.not_lt.mpr hexp
    rw [get_of_lookup_expired c k ts tt v now h hnl]
    have hnone : (c._cache.filter (fun e => e.1 != k)).lookup k = none :=
      lookup_filter_ne_self k c._cache
    exact ⟨hnone, by rw [get_of_lookup_none _ k now2 hnone]⟩

theorem claim_C1_witness :
    ((((DataCacher.init Nat 5).set "a" 7 none 100).get "a" 6000).1 = some 7 ↔
        6000 < 100 + 5000) ∧
    (100 + 5000 ≤ 6000 →
      (((((DataCacher.init Nat 5).set "a" 7 none 100).get "a" 6000).2._cache.lookup "a"
          = none) ∧
       (((((DataCacher.init Nat 5).set "a" 7 none 100).get "a" 6000).2).get "a" 50).1
          = none)) :=
  claim_C1 ((DataCacher.init Nat 5).set "a" 7 none 100) "a" 100 5000 7 6000 50
    (by decide)

/-- Claim C5: set(k, v1) followed by set(k, v2) fully replaces the first
entry (fresh stored_at and ttl); a get(k) before the second entry's
expiry returns v2, and v1 is never returned at any time. -/
theorem claim_C5 {V : Type} (c : DataCacher V) (k : String) (v1 v2 : V)
    (t1 t2 : Option Nat) (n1 n2 n3 n4 : Nat)
    (hfresh : n3 < n2 + c.resolve_ttl_ms t2) :
    ((((c.set k v1 t1 n1).set k v2 t2 n2).get k n3).1 = some v2 ∧
     ((c.set k v1 t1 n1).set k v2 t2 n2)._cache.lookup k
        = some (n2, c.resolve_ttl_ms t2, v2)) ∧
    (v1 ≠ v2 → (((c.set k v1 t1 n1).set k v2 t2 n2).get k n4).1 ≠ some v1) := by
  have hl : ((c.set k v1 t1 n1).set k v2 t2 n2)._cache.lookup k
      = some (n2, c.resolve_ttl_ms t2, v2) := by
    rw [lookup_set_self, resolve_ttl_set]
  refine ⟨⟨?_, hl⟩, ?_⟩
  · rw [get_of_lookup_live _ k n2 (c.resolve_ttl_ms t2) v2 n3 hl hfresh]
  · intro hne
    by_cases h4 : n4 < n2 + c.resolve_ttl_ms t2
    · rw [get_of_lookup_live _ k n2 (c.resolve_ttl_ms t2) v2 n4 hl h4]
      intro hh
      exact hne (Option.some.inj hh).symm
    · rw [get_of_lookup_expired _ k n2 (c.resolve_ttl_ms t2) v2 n4 hl h4]
      simp

theorem claim_C5_witness :
    (((((DataCacher.init Nat 5).set "a" 1 none 0).set "a" 2 none 10).get "a" 20).1
        = some 2 ∧
     (((DataCacher.init Nat 5).set "a" 1 none 0).set "a" 2 none 10)._cache.lookup "a"
        = some (10, (DataCacher.init Nat 5).resolve_ttl_ms none, 2)) ∧
    ((1 : Nat) ≠ 2 →
      ((((DataCacher.init Nat 5).set "a" 1 none 0).set "a" 2 none 10).get "a" 9999).1
        ≠ some 1) :=
  claim_C5 (DataCacher.init Nat 5) "a" 1 2 none none 0 10 20 9999 (by decide)

/-- Claim C7: after clear(), get(key) returns absent for every
previously-set key; clear removes all entries unconditionally. -/
theorem claim_C7 {V : Type} (c : DataCacher V) (k : String) (now : Nat) :
    ((c.clear).get k now).1 = none := rfl

/-- Claim C8: the cache operations are total and have no error outcome:
set always stores its entry for any key, value and optional ttl
override; get on any key returns either absent or a value that was
stored under that key; clear always results in the empty mapping. -/
theorem claim_C8 {V : Type} (c : DataCacher V) (k : String) (v : V)
    (ttl : Option Nat) (now : Nat) :
    ((c.set k v ttl now)._cache.lookup k = some (now, c.resolve_ttl_ms ttl, v)) ∧
    ((c.get k now).1 = none ∨
      ∃ ts tt w, c._cache.lookup k = some (ts, tt, w) ∧ (c.get k now).1 = some w) ∧
    ((c.clear)._cache = []) := by
  refine ⟨lookup_set_self c k v ttl now, ?_, rfl⟩
  match hh : c._cache.lookup k with
  | none =>
    left
    rw [get_of_lookup_none c k now hh]
  | some (ts, tt, w) =>
    by_cases hl : now < ts + tt
    · right
      exact ⟨ts, tt, w, rfl, by rw [get_of_lookup_live c k ts tt w now hh hl]⟩
    · left
      rw [get_of_lookup_expired c k ts tt w now hh hl]

/-- Claim C9: get on a live entry leaves the whole cache unchanged; get
on an expired entry removes exactly that key and leaves every other
entry unchanged. -/
theorem claim_C9 {V : Type} (c : DataCacher V) (k k2 : String) (ts tt : Nat)
    (v : V) (now : Nat)
    (h : c._cache.lookup k = some (ts, tt, v)) :
    (now < ts + tt → (c.get k now).2 = c) ∧
    (ts + tt ≤ now →
      ((c.get k now).2._cache.lookup k = none ∧
       (k2 ≠ k → (c.get k now).2._cache.lookup k2 = c._cache.lookup k2))) := by
  constructor
  · intro hl
    rw [get_of_lookup_live c k ts tt v now h hl]
  · intro hexp
    have hnl : ¬ now < ts + tt := Nat.not_lt.mpr hexp
    rw [get_of_lookup_expired c k ts tt v now h hnl]
    exact ⟨lookup_filter_ne_self k c._cache,
           fun hk2 => lookup_filter_ne_other k k2 c._cache hk2⟩

theorem claim_C9_witness :
    (6000 < 100 + 5000 →
      ((((DataCacher.init Nat 5).set "b" 8 none 0).set "a" 7 none 100).get "a" 6000).2
        = ((DataCacher.init Nat 5).set "b" 8 none 0).set "a" 7 none 100) ∧
    (100 + 5000 ≤ 6000 →
      (((((DataCacher.init Nat 5).set "b" 8 none 0).set "a" 7 none 100).get "a" 6000).2._cache.lookup "a"
          = none ∧
       ("b" ≠ "a" →
        ((((DataCacher.init Nat 5).set "b" 8 none 0).set "a" 7 none 100).get "a" 6000).2._cache.lookup "b"
          = (((DataCacher.init Nat 5).set "b" 8 none 0).set "a" 7 none 100)._cache.lookup "b"))) :=
  claim_C9 (((DataCacher.init Nat 5).set "b" 8 none 0).set "a" 7 none 100)
    "a" "b" 100 5000 7 6000 (by decide)

/-- Claim C2 evaluated on the code: with a valid symbol and timeframe,
an empty cache, and an upstream fetch that succeeds with zero candles,
the handler responds 500, not the 404 the claim and the spec state.
The `raise HTTPException(404, ...)` sits inside the try block and
`except Exception` catches HTTPException and re-raises it as a 500. -/
theorem claim_C2_code_eval :
    (get_historical_data "BTC/USDT" "1h" 100 ["BTC/USDT"] ["1h"]
        (.ok []) CACHE 0).1
      = .error (.http
          { status_code := 500
            detail := "A network or processing error occurred: " ++
              "404: No historical data found for BTC/USDT at timeframe 1h." }) :=
  rfl

/-- Claim C3: a request whose uppercased symbol is outside the market
set is rejected 404, and one whose timeframe is unsupported is rejected
400, in both cases with the cache state unchanged and an outcome that is
independent of the cache contents and of the fetch oracle (both are
universally quantified and absent from the result): validation precedes
any cache access or upstream fetch made for the request. -/
theorem claim_C3 (s1 s2 tf1 tf2 : String) (limit : Nat)
    (markets timeframes : List String)
    (fetchH1 fetchH2 : FetchResult (List RawOHLCV)) (fetchT : FetchResult TickerData)
    (c1 c2 c3 : DataCacher CVal) (n1 n2 n3 : Nat)
    (hbadsym : pyUpper s1 ∉ markets)
    (hgoodsym : pyUpper s2 ∈ markets) (hbadtf : tf2 ∉ timeframes) :
    (get_historical_data s1 tf1 limit markets timeframes fetchH1 c1 n1
      = (.error (.http
          { status_code := 404
            detail := "Symbol " ++ pyUpper s1 ++ " not found on " ++ EXCHANGE_ID ++
              ". Example: BTC/USDT" }), c1)) ∧
    (get_realtime_price s1 markets fetchT c2 n2
      = (.error (.http
          { status_code := 404
            detail := "Symbol " ++ pyUpper s1 ++ " not found on " ++ EXCHANGE_ID ++
              ". Example: BTC/USDT" }), c2)) ∧
    (get_historical_data s2 tf2 limit markets timeframes fetchH2 c3 n3
      = (.error (.http
          { status_code := 400
            detail := "Invalid timeframe: " ++ tf2 ++ ". Supported: " ++
              String.intercalate ", " timeframes }), c3)) := by
  have hv1 : validate_symbol s1 markets = .error
      { status_code := 404
        detail := "Symbol " ++ pyUpper s1 ++ " not found on " ++ EXCHANGE_ID ++
          ". Example: BTC/USDT" } := by
    simp [validate_symbol, hbadsym]
  have hv2 : validate_symbol s2 markets = .ok (pyUpper s2) := by
    simp [validate_symbol, hgoodsym]
  refine ⟨?_, ?_, ?_⟩
  · simp [get_historical_data, hv1]
  · simp [get_realtime_price, hv1]
  · simp [get_historical_data, hv2, hbadtf]

theorem claim_C3_witness :
    (get_historical_data "xxx/yyy" "1h" 5 ["BTC/USDT"] ["1h"]
        (.ok [(1, 2, 3, 4, 5, 6)]) CACHE 0
      = (.error (.http
          { status_code := 404
            detail := "Symbol " ++ pyUpper "xxx/yyy" ++ " not found on " ++
              EXCHANGE_ID ++ ". Example: BTC/USDT" }), CACHE)) ∧
    (get_realtime_price "xxx/yyy" ["BTC/USDT"] (.ok ⟨"BTC/USDT", 9, 1⟩) CACHE 0
      = (.error (.http
          { status_code := 404
            detail := "Symbol " ++ pyUpper "xxx/yyy" ++ " not found on " ++
              EXCHANGE_ID ++ ". Example: BTC/USDT" }), CACHE)) ∧
    (get_historical_data "btc/usdt" "1w00" 5 ["BTC/USDT"] ["1h"]
        (.ok [(1, 2, 3, 4, 5, 6)]) CACHE 0
      = (.error (.http
          { status_code := 400
            detail := "Invalid timeframe: " ++ "1w00" ++ ". Supported: " ++
              String.intercalate ", " ["1h"] }), CACHE)) :=
  claim_C3 "xxx/yyy" "btc/usdt" "1h" "1w00" 5 ["BTC/USDT"] ["1h"]
    (.ok [(1, 2, 3, 4, 5, 6)]) (.ok [(1, 2, 3, 4, 5, 6)]) (.ok ⟨"BTC/USDT", 9, 1⟩)
    CACHE CACHE CACHE 0 0 0 (by decide) (by decide) (by decide)

/-- Claim C4: two historical requests that agree on (symbol up to case,
timeframe, limit) derive the same cache key; after the first request
populates the cache on a miss, a second request made before the
3600 s expiry -- whatever the case of its symbol and whatever its own
fetch oracle would return -- is a hit returning the identical stored
record and leaving the cache unchanged. -/
theorem claim_C4 (s1 s2 tf : String) (lim : Nat)
    (markets timeframes : List String)
    (ohlcv : List RawOHLCV) (f2 : FetchResult (List RawOHLCV))
    (c0 : DataCacher CVal) (n1 n2 : Nat)
    (hsym : pyUpper s1 = pyUpper s2)
    (hmk : pyUpper s1 ∈ markets) (htf : tf ∈ timeframes)
    (hmiss : (c0.get (histCacheKey (pyUpper s1) tf lim) n1).1 = none)
    (hne : ohlcv ≠ [])
    (hfresh : n2 < n1 + 60 * 60 * 1000) :
    histCacheKey (pyUpper s1) tf lim = histCacheKey (pyUpper s2) tf lim ∧
    (get_historical_data s1 tf lim markets timeframes (.ok ohlcv) c0 n1).1
      = .ok (CVal.hist (shapeHist (pyUpper s1) tf ohlcv)) ∧
    get_historical_data s2 tf lim markets timeframes f2
        (get_historical_data s1 tf lim markets timeframes (.ok ohlcv) c0 n1).2 n2
      = ((get_historical_data s1 tf lim markets timeframes (.ok ohlcv) c0 n1).1,
         (get_historical_data s1 tf lim markets timeframes (.ok ohlcv) c0 n1).2) := by
  have hkey : histCacheKey (pyUpper s1) tf lim = histCacheKey (pyUpper s2) tf lim := by
    rw [hsym]
  have hv1 : validate_symbol s1 markets = .ok (pyUpper s1) := by
    simp [validate_symbol, hmk]
  have hv2 : validate_symbol s2 markets = .ok (pyUpper s2) := by
    simp [validate_symbol, ← hsym, hmk]
  have hne' : ohlcv.isEmpty = false := by
    cases ohlcv with
    | nil => exact absurd rfl hne
    | cons a t => rfl
  have hr1 : get_historical_data s1 tf lim markets timeframes (.ok ohlcv) c0 n1
      = (.ok (CVal.hist (shapeHist (pyUpper s1) tf ohlcv)),
         ((c0.get (histCacheKey (pyUpper s1) tf lim) n1).2).set
           (histCacheKey (pyUpper s1) tf lim)
           (CVal.hist (shapeHist (pyUpper s1) tf ohlcv)) (some (60 * 60)) n1) := by
    simp [get_historical_data, hv1, htf, hmiss, historical_try, hne',
      historical_excepts, CVal.truthy]
  have hl2 : (((c0.get (histCacheKey (pyUpper s1) tf lim) n1).2).set
        (histCacheKey (pyUpper s1) tf lim)
        (CVal.hist (shapeHist (pyUpper s1) tf ohlcv)) (some (60 * 60)) n1)._cache.lookup
        (histCacheKey (pyUpper s1) tf lim)
      = some (n1, 60 * 60 * 1000, CVal.hist (shapeHist (pyUpper s1) tf ohlcv)) :=
    lookup_set_self _ _ _ _ _
  have hget2 : (((c0.get (histCacheKey (pyUpper s1) tf lim) n1).2).set
        (histCacheKey (pyUpper s1) tf lim)
        (CVal.hist (shapeHist (pyUpper s1) tf ohlcv)) (some (60 * 60)) n1).get
        (histCacheKey (pyUpper s1) tf lim) n2
      = (some (CVal.hist (shapeHist (pyUpper s1) tf ohlcv)),
         ((c0.get (histCacheKey (pyUpper s1) tf lim) n1).2).set
           (histCacheKey (pyUpper s1) tf lim)
           (CVal.hist (shapeHist (pyUpper s1) tf ohlcv)) (some (60 * 60)) n1) :=
    get_of_lookup_live _ _ _ _ _ _ hl2 hfresh
  have hr2 : get_historical_data s2 tf lim markets timeframes f2
        (((c0.get (histCacheKey (pyUpper s1) tf lim) n1).2).set
          (histCacheKey (pyUpper s1) tf lim)
          (CVal.hist (shapeHist (pyUpper s1) tf ohlcv)) (some (60 * 60)) n1) n2
      = (.ok (CVal.hist (shapeHist (pyUpper s1) tf ohlcv)),
         ((c0.get (histCacheKey (pyUpper s1) tf lim) n1).2).set
           (histCacheKey (pyUpper s1) tf lim)
           (CVal.hist (shapeHist (pyUpper s1) tf ohlcv)) (some (60 * 60)) n1) := by
    simp [get_historical_data, hv2, htf, ← hkey, hget2, CVal.truthy]
  refine ⟨hkey, ?_, ?_⟩
  · rw [hr1]
  · rw [hr1]
    exact hr2

theorem claim_C4_witness :
    histCacheKey (pyUpper "btc/usdt") "1h" 2 = histCacheKey (pyUpper "BTC/usdt") "1h" 2 ∧
    (get_historical_data "btc/usdt" "1h" 2 ["BTC/USDT"] ["1h"]
        (.ok [(1, 2, 3, 4, 5, 6)]) CACHE 0).1
      = .ok (CVal.hist (shapeHist (pyUpper "btc/usdt") "1h" [(1, 2, 3, 4, 5, 6)])) ∧
    get_historical_data "BTC/usdt" "1h" 2 ["BTC/USDT"] ["1h"] (.otherError "down")
        (get_historical_data "btc/usdt" "1h" 2 ["BTC/USDT"] ["1h"]
          (.ok [(1, 2, 3, 4, 5, 6)]) CACHE 0).2 1000
      = ((get_historical_data "btc/usdt" "1h" 2 ["BTC/USDT"] ["1h"]
            (.ok [(1, 2, 3, 4, 5, 6)]) CACHE 0).1,
         (get_historical_data "btc/usdt" "1h" 2 ["BTC/USDT"] ["1h"]
            (.ok [(1, 2, 3, 4, 5, 6)]) CACHE 0).2) :=
  claim_C4 "btc/usdt" "BTC/usdt" "1h" 2 ["BTC/USDT"] ["1h"]
    [(1, 2, 3, 4, 5, 6)] (.otherError "down") CACHE 0 1000
    (by decide) (by decide) (by decide) (by decide) (by decide) (by decide)

/-- Claim C6 counterexample: a failed request can change the cache
state.  With an entry stored at time 0 under the request key (default
5 s TTL) and a request at time 6000 whose upstream fetch raises an
exchange error, the lookup on the miss path lazily evicts the expired
entry, so the cache after the failed request differs from the cache
before it. -/
theorem claim_C6_counterexample :
    (get_historical_data "BTC/USDT" "1h" 100 ["BTC/USDT"] ["1h"]
        (.exchangeError "boom")
        (CACHE.set (histCacheKey "BTC/USDT" "1h" 100)
          (CVal.hist (shapeHist "BTC/USDT" "1h" [(1, 2, 3, 4, 5, 6)])) none 0)
        6000).2
      ≠ CACHE.set (histCacheKey "BTC/USDT" "1h" 100)
          (CVal.hist (shapeHist "BTC/USDT" "1h" [(1, 2, 3, 4, 5, 6)])) none 0 := by
  decide

/-- Claim C6 as amended: on the cache-miss path a failed upstream fetch
(exchange error, other error, or cancellation) writes no cache entry --
the resulting cache is exactly the cache after the lookup alone, which
may at most have lazily evicted an expired entry at the request key --
and the error propagates to the caller instead of being masked as a
hit.  This holds for both handlers. -/
theorem claim_C6_amended (symbol tf : String) (lim : Nat)
    (markets timeframes : List String)
    (fetch : FetchResult (List RawOHLCV)) (ft : FetchResult TickerData)
    (cH cT : DataCacher CVal) (nH nT : Nat)
    (hmk : pyUpper symbol ∈ markets) (htf : tf ∈ timeframes)
    (hmissH : ((cH.get (histCacheKey (pyUpper symbol) tf lim) nH).1.getD
        CVal.pyNone).truthy = false)
    (hmissT : ((cT.get (tickerCacheKey (pyUpper symbol)) nT).1.getD
        CVal.pyNone).truthy = false)
    (hfailH : ∀ a, fetch ≠ .ok a) (hfailT : ∀ a, ft ≠ .ok a) :
    ((∃ e, (get_historical_data symbol tf lim markets timeframes fetch cH nH).1
        = .error e) ∧
     (get_historical_data symbol tf lim markets timeframes fetch cH nH).2
        = (cH.get (histCacheKey (pyUpper symbol) tf lim) nH).2) ∧
    ((∃ e, (get_realtime_price symbol markets ft cT nT).1 = .error e) ∧
     (get_realtime_price symbol markets ft cT nT).2
        = (cT.get (tickerCacheKey (pyUpper symbol)) nT).2) := by
  have hv : validate_symbol symbol markets = .ok (pyUpper symbol) := by
    simp [validate_symbol, hmk]
  have hH : get_historical_data symbol tf lim markets timeframes fetch cH nH
      = (historical_excepts (pyUpper symbol)
          (historical_try (pyUpper symbol) tf (histCacheKey (pyUpper symbol) tf lim)
            fetch (cH.get (histCacheKey (pyUpper symbol) tf lim) nH).2 nH).1,
         (historical_try (pyUpper symbol) tf (histCacheKey (pyUpper symbol) tf lim)
            fetch (cH.get (histCacheKey (pyUpper symbol) tf lim) nH).2 nH).2) := by
    simp [get_historical_data, hv, htf, hmissH]
  have hT : get_realtime_price symbol markets ft cT nT
      = (realtime_excepts (pyUpper symbol)
          (realtime_try (tickerCacheKey (pyUpper symbol)) ft
            (cT.get (tickerCacheKey (pyUpper symbol)) nT).2 nT).1,
         (realtime_try (tickerCacheKey (pyUpper symbol)) ft
            (cT.get (tickerCacheKey (pyUpper symbol)) nT).2 nT).2) := by
    simp [get_realtime_price, hv, hmissT]
  constructor
  · cases fetch with
    | ok a => exact absurd rfl (hfailH a)
    | exchangeError m => rw [hH]; exact ⟨⟨_, rfl⟩, rfl⟩
    | otherError m => rw [hH]; exact ⟨⟨_, rfl⟩, rfl⟩
    | cancelled => rw [hH]; exact ⟨⟨_, rfl⟩, rfl⟩
  · cases ft with
    | ok a => exact absurd rfl (hfailT a)
    | exchangeError m => rw [hT]; exact ⟨⟨_, rfl⟩, rfl⟩
    | otherError m => rw [hT]; exact ⟨⟨_, rfl⟩, rfl⟩
    | cancelled => rw [hT]; exact ⟨⟨_, rfl⟩, rfl⟩

theorem claim_C6_amended_witness :
    ((∃ e, (get_historical_data "BTC/USDT" "1h" 3 ["BTC/USDT"] ["1h"]
        (.exchangeError "boom") CACHE 0).1 = .error e) ∧
     (get_historical_data "BTC/USDT" "1h" 3 ["BTC/USDT"] ["1h"]
        (.exchangeError "boom") CACHE 0).2
        = (CACHE.get (histCacheKey (pyUpper "BTC/USDT") "1h" 3) 0).2) ∧
    ((∃ e, (get_realtime_price "BTC/USDT" ["BTC/USDT"]
        (.otherError "net down") CACHE 0).1 = .error e) ∧
     (get_realtime_price "BTC/USDT" ["BTC/USDT"]
        (.otherError "net down") CACHE 0).2
        = (CACHE.get (tickerCacheKey (pyUpper "BTC/USDT")) 0).2) :=
  claim_C6_amended "BTC/USDT" "1h" 3 ["BTC/USDT"] ["1h"]
    (.exchangeError "boom") (.otherError "net down") CACHE CACHE 0 0
    (by decide) (by decide) (by decide) (by decide)
    (fun a h => FetchResult.noConfusion h) (fun a h => FetchResult.noConfusion h)

/-- Claim C10 (implicit): a stored falsy value is indistinguishable from
a miss at the public interface -- set(key, None) then get(key) before
expiry returns the stored None, the same observable result Python gives
for an absent key -- and both request handlers treat a falsy cached
value at the request key as a miss: they run the upstream fetch path
and never serve the falsy record as a hit. -/
theorem claim_C10 (c cH cT : DataCacher CVal) (k symbol tf : String)
    (lim : Nat) (ttl : Option Nat) (n1 n2 : Nat)
    (markets timeframes : List String)
    (fetch : FetchResult (List RawOHLCV)) (ft : FetchResult TickerData)
    (nH nT : Nat) (v w : CVal)
    (hlive : n2 < n1 + c.resolve_ttl_ms ttl)
    (hmk : pyUpper symbol ∈ markets) (htf : tf ∈ timeframes)
    (hvH : (cH.get (histCacheKey (pyUpper symbol) tf lim) nH).1 = some v)
    (hvHf : v.truthy = false)
    (hvT : (cT.get (tickerCacheKey (pyUpper symbol)) nT).1 = some w)
    (hvTf : w.truthy = false) :
    (((c.set k CVal.pyNone ttl n1).get k n2).1 = some CVal.pyNone ∧
     ((c.set k CVal.pyNone ttl n1).get k n2).1.getD CVal.pyNone
        = ((c.clear).get k n2).1.getD CVal.pyNone) ∧
    (get_historical_data symbol tf lim markets timeframes fetch cH nH
        = (historical_excepts (pyUpper symbol)
            (historical_try (pyUpper symbol) tf (histCacheKey (pyUpper symbol) tf lim)
              fetch (cH.get (histCacheKey (pyUpper symbol) tf lim) nH).2 nH).1,
           (historical_try (pyUpper symbol) tf (histCacheKey (pyUpper symbol) tf lim)
              fetch (cH.get (histCacheKey (pyUpper symbol) tf lim) nH).2 nH).2) ∧
     (get_historical_data symbol tf lim markets timeframes fetch cH nH).1 ≠ .ok v) ∧
    (get_realtime_price symbol markets ft cT nT
        = (realtime_excepts (pyUpper symbol)
            (realtime_try (tickerCacheKey (pyUpper symbol)) ft
              (cT.get (tickerCacheKey (pyUpper symbol)) nT).2 nT).1,
           (realtime_try (tickerCacheKey (pyUpper symbol)) ft
              (cT.get (tickerCacheKey (pyUpper symbol)) nT).2 nT).2) ∧
     (get_realtime_price symbol markets ft cT nT).1 ≠ .ok w) := by
  have hsetget : (c.set k CVal.pyNone ttl n1).get k n2
      = (some CVal.pyNone, c.set k CVal.pyNone ttl n1) :=
    get_of_lookup_live _ k n1 (c.resolve_ttl_ms ttl) CVal.pyNone n2
      (lookup_set_self c k CVal.pyNone ttl n1) hlive
  have hmissH : ((cH.get (histCacheKey (pyUpper symbol) tf lim) nH).1.getD
      CVal.pyNone).truthy = false := by
    rw [hvH]
    simpa using hvHf
  have hmissT : ((cT.get (tickerCacheKey (pyUpper symbol)) nT).1.getD
      CVal.pyNone).truthy = false := by
    rw [hvT]
    simpa using hvTf
  have hv : validate_symbol symbol markets = .ok (pyUpper symbol) := by
    simp [validate_symbol, hmk]
  have hH : get_historical_data symbol tf lim markets timeframes fetch cH nH
      = (historical_excepts (pyUpper symbol)
          (historical_try (pyUpper symbol) tf (histCacheKey (pyUpper symbol) tf lim)
            fetch (cH.get (histCacheKey (pyUpper symbol) tf lim) nH).2 nH).1,
         (historical_try (pyUpper symbol) tf (histCacheKey (pyUpper symbol) tf lim)
            fetch (cH.get (histCacheKey (pyUpper symbol) tf lim) nH).2 nH).2) := by
    simp [get_historical_data, hv, htf, hmissH]
  have hT : get_realtime_price symbol markets ft cT nT
      = (realtime_excepts (pyUpper symbol)
          (realtime_try (tickerCacheKey (pyUpper symbol)) ft
            (cT.get (tickerCacheKey (pyUpper symbol)) nT).2 nT).1,
         (realtime_try (tickerCacheKey (pyUpper symbol)) ft
            (cT.get (tickerCacheKey (pyUpper symbol)) nT).2 nT).2) := by
    simp [get_realtime_price, hv, hmissT]
  refine ⟨⟨?_, ?_⟩, ⟨hH, ?_⟩, ⟨hT, ?_⟩⟩
  · rw [hsetget]
  · rw [hsetget]
    rfl
  · rw [hH]
    cases fetch with
    | ok a =>
      cases a with
      | nil => simp [historical_try, historical_excepts]
      | cons x xs =>
        simp [historical_try, historical_excepts]
        intro hh
        rw [← hh] at hvHf
        simp [CVal.truthy] at hvHf
    | exchangeError m => simp [historical_try, historical_excepts]
    | otherError m => simp [historical_try, historical_excepts]
    | cancelled => simp [historical_try, historical_excepts]
  · rw [hT]
    cases ft with
    | ok a =>
      simp [realtime_try, realtime_excepts]
      intro hh
      rw [← hh] at hvTf
      simp [CVal.truthy] at hvTf
    | exchangeError m => simp [realtime_try, realtime_excepts]
    | otherError m => simp [realtime_try, realtime_excepts]
    | cancelled => simp [realtime_try, realtime_excepts]

theorem claim_C10_witness :
    (((CACHE.set "a" CVal.pyNone none 0).get "a" 10).1 = some CVal.pyNone ∧
     ((CACHE.set "a" CVal.pyNone none 0).get "a" 10).1.getD CVal.pyNone
        = ((CACHE.clear).get "a" 10).1.getD CVal.pyNone) ∧
    (get_historical_data "BTC/USDT" "1h" 1 ["BTC/USDT"] ["1h"]
        (.ok [(1, 2, 3, 4, 5, 6)])
        (CACHE.set (histCacheKey "BTC/USDT" "1h" 1) CVal.pyNone none 0) 10
        = (historical_excepts (pyUpper "BTC/USDT")
            (historical_try (pyUpper "BTC/USDT") "1h"
              (histCacheKey (pyUpper "BTC/USDT") "1h" 1) (.ok [(1, 2, 3, 4, 5, 6)])
              ((CACHE.set (histCacheKey "BTC/USDT" "1h" 1) CVal.pyNone none 0).get
                (histCacheKey (pyUpper "BTC/USDT") "1h" 1) 10).2 10).1,
           (historical_try (pyUpper "BTC/USDT") "1h"
              (histCacheKey (pyUpper "BTC/USDT") "1h" 1) (.ok [(1, 2, 3, 4, 5, 6)])
              ((CACHE.set (histCacheKey "BTC/USDT" "1h" 1) CVal.pyNone none 0).get
                (histCacheKey (pyUpper "BTC/USDT") "1h" 1) 10).2 10).2) ∧
     (get_historical_data "BTC/USDT" "1h" 1 ["BTC/USDT"] ["1h"]
        (.ok [(1, 2, 3, 4, 5, 6)])
        (CACHE.set (histCacheKey "BTC/USDT" "1h" 1) CVal.pyNone none 0) 10).1
        ≠ .ok CVal.pyNone) ∧
    (get_realtime_price "BTC/USDT" ["BTC/USDT"] (.ok ⟨"BTC/USDT", 9, 5⟩)
        (CACHE.set (tickerCacheKey "BTC/USDT") CVal.pyNone none 0) 10
        = (realtime_excepts (pyUpper "BTC/USDT")
            (realtime_try (tickerCacheKey (pyUpper "BTC/USDT")) (.ok ⟨"BTC/USDT", 9, 5⟩)
              ((CACHE.set (tickerCacheKey "BTC/USDT") CVal.pyNone none 0).get
                (tickerCacheKey (pyUpper "BTC/USDT")) 10).2 10).1,
           (realtime_try (tickerCacheKey (pyUpper "BTC/USDT")) (.ok ⟨"BTC/USDT", 9, 5⟩)
              ((CACHE.set (tickerCacheKey "BTC/USDT") CVal.pyNone none 0).get
                (tickerCacheKey (pyUpper "BTC/USDT")) 10).2 10).2) ∧
     (get_realtime_price "BTC/USDT" ["BTC/USDT"] (.ok ⟨"BTC/USDT", 9, 5⟩)
        (CACHE.set (tickerCacheKey "BTC/USDT") CVal.pyNone none 0) 10).1
        ≠ .ok CVal.pyNone) :=
  claim_C10 CACHE
    (CACHE.set (histCacheKey "BTC/USDT" "1h" 1) CVal.pyNone none 0)
    (CACHE.set (tickerCacheKey "BTC/USDT") CVal.pyNone none 0)
    "a" "BTC/USDT" "1h" 1 none 0 10 ["BTC/USDT"] ["1h"]
    (.ok [(1, 2, 3, 4, 5, 6)]) (.ok ⟨"BTC/USDT", 9, 5⟩) 10 10
    CVal.pyNone CVal.pyNone
    (by decide) (by decide) (by decide) (by decide) (by decide) (by decide)
    (by decide)
